import Mathlib

/-!
# Verification of the ytMusicSpotifyLinker watcher runtime

A shallow embedding of the backend's sync engine, watcher scheduler, sync
journal, credential manager and PKCE helpers, translated from the Rust
sources under `src/backend/src`, together with theorems settling the
specification claims about them.

Conventions of the embedding:
* `OffsetDateTime` is modelled as `Int` (seconds); the current time is an
  explicit parameter wherever the Rust code calls `OffsetDateTime::now_utc()`.
* Database tables (`watchers`, `sync_operations`, `user_credentials`) are
  lists inside an explicit state record; SQL queries become list operations.
* Network calls (the Spotify track fetch and the Songlink lookup) are
  oracles passed as function arguments: the environment's responses.
* Rust `i32`/`i64` counters are modelled as `Int` (the claims under study
  never approach overflow), `Vec` as `List`, `HashMap` as association list.
-/

namespace YtMusicSpotifyLinker

/-! ## Data model (`src/backend/src/users/models.rs`, `app/spotify/types.rs`) -/

/-- `users::models::Watcher` (models.rs lines 25-39). Timestamps are `Int`. -/
structure Watcher where
  id : Int
  user_id : Int
  name : String
  source_service : String
  source_playlist_id : String
  target_service : String
  target_playlist_id : Option String
  is_active : Bool
  sync_frequency : Int
  last_sync_at : Option Int
  created_at : Int
  updated_at : Int
deriving DecidableEq, Repr

/-- `users::models::SyncOperation` (models.rs lines 78-90). -/
structure SyncOperation where
  id : Int
  watcher_id : Int
  operation_type : String
  status : String
  songs_added : Int
  songs_removed : Int
  songs_failed : Int
  error_message : Option String
  started_at : Int
  completed_at : Option Int
deriving DecidableEq, Repr

/-- `users::models::UserCredential` (models.rs lines 12-23). -/
structure UserCredential where
  id : Int
  user_id : Int
  service : String
  access_token : String
  refresh_token : Option String
  expires_at : Option Int
  token_scope : Option String
  created_at : Int
  updated_at : Int
deriving DecidableEq, Repr

/-- `users::models::SongResponse` (models.rs lines 136-144). -/
structure SongResponse where
  id : Int
  service : String
  external_id : String
  title : String
  artist : Option String
  album : Option String
  duration_ms : Option Int
deriving DecidableEq, Repr

/-- `users::models::SongFailure` (models.rs lines 146-151). -/
structure SongFailure where
  title : String
  artist : Option String
  error : String
deriving DecidableEq, Repr

/-- `users::models::SyncPreviewResponse` (models.rs lines 128-133). -/
structure SyncPreviewResponse where
  songs_to_add : List SongResponse
  songs_to_remove : List SongResponse
  songs_failed : List SongFailure
deriving DecidableEq, Repr

/-- `users::models::SyncOperationResponse` (models.rs lines 153-164). -/
structure SyncOperationResponse where
  id : Int
  operation_type : String
  status : String
  songs_added : Int
  songs_removed : Int
  songs_failed : Int
  error_message : Option String
  started_at : Int
  completed_at : Option Int
deriving DecidableEq, Repr

/-- `app::spotify::types::SpotifyError` (types.rs lines 107-153). The
payloads of the `#[from]` variants (`reqwest`, `serde_json`, `sqlx` errors)
are modelled by their display strings. -/
inductive SpotifyError where
  | AuthenticationFailed (msg : String)
  | ApiRequestFailed (msg : String)
  | ApiError (msg : String)
  | InvalidInput (msg : String)
  | InvalidOAuthState
  | TokenExpired
  | InsufficientPermissions (msg : String)
  | RateLimitExceeded
  | PlaylistNotFound (msg : String)
  | TrackNotFound (msg : String)
  | ValidationError (msg : String)
  | NetworkError (msg : String)
  | SerializationError (msg : String)
  | DatabaseError (msg : String)
  | Generic (msg : String)
deriving DecidableEq, Repr

deriving instance DecidableEq for Except

/-- The `thiserror`-derived `Display` of `SpotifyError` (the `#[error]`
format strings of types.rs lines 107-153), used wherever the Rust code calls
`e.to_string()`. -/
def SpotifyError.display : SpotifyError → String
  | .AuthenticationFailed m => "Authentication failed: " ++ m
  | .ApiRequestFailed m => "API request failed: " ++ m
  | .ApiError m => "API error: " ++ m
  | .InvalidInput m => "Invalid input: " ++ m
  | .InvalidOAuthState => "Invalid OAuth state"
  | .TokenExpired => "Token expired"
  | .InsufficientPermissions m => "Insufficient permissions: " ++ m
  | .RateLimitExceeded => "Rate limit exceeded"
  | .PlaylistNotFound m => "Playlist not found: " ++ m
  | .TrackNotFound m => "Track not found: " ++ m
  | .ValidationError m => "Validation error: " ++ m
  | .NetworkError m => "Network error: " ++ m
  | .SerializationError m => "Serialization error: " ++ m
  | .DatabaseError m => "Database error: " ++ m
  | .Generic m => "Generic error: " ++ m

/-! ## rspotify / songlink types used by the sync engine

`rspotify::model::FullTrack` is an external-crate type; only the fields the
sync code reads are modelled: `external_urls` (a map), `id`, `name`,
`artists` (only artist names are read), `album.name`, `duration`
(milliseconds). -/

/-- The slice of `rspotify::model::FullTrack` read by `preview_sync`
(sync.rs lines 57-101): `artists` holds the artist names, `album` the album
name, `duration_ms` the duration in milliseconds, `external_urls` an
association list. -/
structure FullTrack where
  id : Option String
  name : String
  artists : List String
  album : String
  duration_ms : Int
  external_urls : List (String × String)
deriving DecidableEq, Repr

/-- `rspotify::model::PlayableItem`: a playlist entry is a track or an
episode; the episode payload is never read by the sync code. -/
inductive PlayableItem where
  | Track (track : FullTrack)
  | Episode
deriving DecidableEq, Repr

/-- The slice of `rspotify::model::PlaylistItem` read by `preview_sync`:
only the `track : Option PlayableItem` field is used. -/
structure PlaylistItem where
  track : Option PlayableItem
deriving DecidableEq, Repr

/-- `app::songlink::Platform` values used by `find_track_on_target_service`
(sync.rs lines 239-246). -/
inductive Platform where
  | Spotify
  | YoutubeMusic
  | AppleMusic
  | Deezer
  | Tidal
  | AmazonMusic
deriving DecidableEq, Repr

/-- The slice of `app::songlink::PlatformLink` read by the sync engine:
`entity_unique_id` and `url`. -/
structure PlatformLink where
  entity_unique_id : String
  url : String
deriving DecidableEq, Repr

/-- The slice of `app::songlink::Entity` read by
`extract_external_id_from_link` (sync.rs lines 286-288): only `id`. -/
structure Entity where
  id : String
deriving DecidableEq, Repr

/-- The slice of `app::songlink::LinksResponse` read by the sync engine.
The two `HashMap`s become association lists. -/
structure LinksResponse where
  entity_unique_id : String
  links_by_platform : List (Platform × PlatformLink)
  entities_by_unique_id : List (String × Entity)
deriving DecidableEq, Repr

/-- Outcome of one `SonglinkClient::fetch_links` network call, the
environment's response for a given source URL. -/
inductive SonglinkOutcome where
  | ok (resp : LinksResponse)
  | err (msg : String)
deriving DecidableEq, Repr

/-- `TargetTrackInfo` (sync.rs lines 334-339). -/
structure TargetTrackInfo where
  external_id : String
  url : String
deriving DecidableEq, Repr

/-- Association-list lookup, modelling `HashMap::get`. -/
def assocLookup {α β : Type} [BEq α] (l : List (α × β)) (k : α) : Option β :=
  (l.find? (fun e => e.1 == k)).map (fun e => e.2)

/-! ## Database state and repositories (`src/backend/src/users/repository.rs`) -/

/-- The relevant database tables. `next_sync_op_id` models the SQLite
AUTOINCREMENT id of `sync_operations`. -/
structure Db where
  watchers : List Watcher
  sync_operations : List SyncOperation
  next_sync_op_id : Int
deriving DecidableEq, Repr

/-- `WatcherRepository::get_watcher_by_id` (queries `watchers` by id; in the
repository file this is the obvious SELECT used throughout watcher.rs and
sync.rs). -/
def get_watcher_by_id (db : Db) (watcher_id : Int) : Option Watcher :=
  db.watchers.find? (fun w => w.id == watcher_id)

/-- `SyncRepository::create_sync_operation` (repository.rs lines 215-243):
INSERT with status `pending`, zero counts (column defaults), `started_at =
now`, NULL `completed_at`; returns the new row. -/
def create_sync_operation (now : Int) (db : Db) (watcher_id : Int)
    (operation_type : String) : SyncOperation × Db :=
  let row : SyncOperation :=
    { id := db.next_sync_op_id
      watcher_id := watcher_id
      operation_type := operation_type
      status := "pending"
      songs_added := 0
      songs_removed := 0
      songs_failed := 0
      error_message := none
      started_at := now
      completed_at := none }
  (row,
   { db with
      sync_operations := db.sync_operations ++ [row]
      next_sync_op_id := db.next_sync_op_id + 1 })

/-- `SyncRepository::update_sync_operation` (repository.rs lines 245-267):
sets status, counts and error text on the row with the given id, and sets
`completed_at = now` exactly when the status string is `completed` or
`failed` (line 247) — note `completed_with_errors` is not in that test. -/
def update_sync_operation (now : Int) (db : Db) (sync_id : Int)
    (status : String) (songs_added songs_removed songs_failed : Int)
    (error_message : Option String) : Db :=
  let completed_at : Option Int :=
    if status = "completed" ∨ status = "failed" then some now else none
  { db with
      sync_operations := db.sync_operations.map (fun r =>
        if r.id == sync_id then
          { r with
              status := status
              songs_added := songs_added
              songs_removed := songs_removed
              songs_failed := songs_failed
              error_message := error_message
              completed_at := completed_at }
        else r) }

/-- The per-row effect of the `update_last_sync` UPDATE: set `last_sync_at`
and `updated_at` on the row with the given id. -/
def touch_watcher (now watcher_id : Int) (w : Watcher) : Watcher :=
  if w.id == watcher_id then
    { w with last_sync_at := some now, updated_at := now }
  else w

/-- `WatcherRepository::update_last_sync` (repository.rs lines 104-116). -/
def update_last_sync (now : Int) (db : Db) (watcher_id : Int) : Db :=
  { db with watchers := db.watchers.map (touch_watcher now watcher_id) }

/-! ## Sync engine (`src/backend/src/app/spotify/sync.rs`) -/

/-- The spotify URL computed for a track (sync.rs lines 58-71):
`external_urls.get("spotify")` with the `spotify:track:{id}` fallback. -/
def track_spotify_url (full_track : FullTrack) : String :=
  match assocLookup full_track.external_urls "spotify" with
  | some u => u
  | none => "spotify:track:" ++ full_track.id.getD "unknown"

/-- The target-service-to-`Platform` table of
`find_track_on_target_service` (sync.rs lines 239-246). -/
def target_platform (target_service : String) : Option Platform :=
  if target_service = "youtube_music" then some .YoutubeMusic
  else if target_service = "apple_music" then some .AppleMusic
  else if target_service = "deezer" then some .Deezer
  else if target_service = "tidal" then some .Tidal
  else if target_service = "amazon_music" then some .AmazonMusic
  else none

/-- `SpotifySyncService::extract_external_id_from_link` (sync.rs lines
280-294): the entity id when the unique id is known, otherwise the
`unknown_{service}` fallback; always `Ok`. -/
def extract_external_id_from_link (response : LinksResponse)
    (entity_unique_id : String) (target_service : String) :
    Except String String :=
  match assocLookup response.entities_by_unique_id entity_unique_id with
  | some entity => .ok entity.id
  | none => .ok ("unknown_" ++ target_service)

/-- `SpotifySyncService::find_track_on_target_service` (sync.rs lines
234-277). A Songlink network error is swallowed into `Ok(None)` (lines
271-275); an unsupported target service returns `Ok(None)` (line 245). -/
def find_track_on_target_service (songlink : String → SonglinkOutcome)
    (spotify_url target_service : String) :
    Except String (Option TargetTrackInfo) :=
  match target_platform target_service with
  | none => .ok none
  | some platform =>
    match songlink spotify_url with
    | .ok response =>
      match assocLookup response.links_by_platform platform with
      | some link =>
        match extract_external_id_from_link response link.entity_unique_id
            target_service with
        | .ok external_id => .ok (some { external_id := external_id, url := link.url })
        | .error e => .error e
      | none => .ok none
    | .err _ => .ok none

/-- One iteration of the `for track_item in source_tracks` loop of
`preview_sync` (sync.rs lines 56-104), pushing onto the accumulated
`(songs_to_add, songs_failed)` pair. Items that are not `Some(Track _)` are
skipped. -/
def preview_track_step (songlink : String → SonglinkOutcome)
    (target_service : String)
    (acc : List SongResponse × List SongFailure) (item : PlaylistItem) :
    List SongResponse × List SongFailure :=
  match item.track with
  | some (.Track full_track) =>
    let spotify_url := track_spotify_url full_track
    match find_track_on_target_service songlink spotify_url target_service with
    | .ok (some target_track_info) =>
      (acc.1 ++ [{ id := 0
                   service := target_service
                   external_id := target_track_info.external_id
                   title := full_track.name
                   artist := full_track.artists.head?
                   album := some full_track.album
                   duration_ms := some full_track.duration_ms }], acc.2)
    | .ok none =>
      (acc.1, acc.2 ++ [{ title := full_track.name
                          artist := full_track.artists.head?
                          error := "Track not found on " ++ target_service }])
    | .error e =>
      (acc.1, acc.2 ++ [{ title := full_track.name
                          artist := full_track.artists.head?
                          error := "Error finding track: " ++ e }])
  | _ => acc

/-- `SpotifySyncService::preview_sync` (sync.rs lines 39-114).
`source_fetch` is the outcome of
`playlist_service.get_playlist_tracks(user_id, source_playlist_id)`;
the `_target_playlist_id` argument is unused in the source (line 44) and
`songs_to_remove` is the fresh empty vector of line 107. -/
def preview_sync (source_fetch : Except SpotifyError (List PlaylistItem))
    (songlink : String → SonglinkOutcome)
    (target_service : String) (_target_playlist_id : Option String) :
    Except SpotifyError SyncPreviewResponse :=
  match source_fetch with
  | .error e => .error e
  | .ok source_tracks =>
    let acc := source_tracks.foldl (preview_track_step songlink target_service) ([], [])
    .ok { songs_to_add := acc.1
          songs_to_remove := []
          songs_failed := acc.2 }

/-- The adapter operations of `SpotifyPlaylistService`
(`app/spotify/playlists.rs`) that a sync run could invoke, recorded as an
effect trace. -/
inductive AdapterCall where
  | getPlaylistTracks (user_id : Int) (playlist_id : String)
  | addTracksToPlaylist (user_id : Int) (playlist_id : String) (track_ids : List String)
  | removeTracksFromPlaylist (user_id : Int) (playlist_id : String) (track_ids : List String)
  | createPlaylist (user_id : Int) (name : String)
deriving DecidableEq, Repr

/-- Whether an adapter call mutates upstream playlist state. -/
def is_mutating_call : AdapterCall → Bool
  | .getPlaylistTracks _ _ => false
  | .addTracksToPlaylist _ _ _ => true
  | .removeTracksFromPlaylist _ _ _ => true
  | .createPlaylist _ _ => true

/-- Upstream playlist state: track-id lists keyed by playlist external id. -/
structure Upstream where
  playlists : List (String × List String)
deriving DecidableEq, Repr

/-- Net effect of `SpotifyPlaylistService::add_tracks_to_playlist`
(playlists.rs lines 210-253) on upstream state: appends the ids to the
playlist (the ≤100-id batching of lines 234-243 does not change the
resulting playlist); an empty id list is a no-op (line 216). -/
def add_tracks_to_playlist (up : Upstream) (playlist_id : String)
    (track_ids : List String) : Upstream :=
  if track_ids = [] then up
  else { playlists := up.playlists.map (fun e =>
          if e.1 == playlist_id then (e.1, e.2 ++ track_ids) else e) }

/-- Net effect of `SpotifyPlaylistService::remove_tracks_from_playlist`
(playlists.rs lines 256 onward) on upstream state: drops the listed ids;
an empty id list is a no-op. -/
def remove_tracks_from_playlist (up : Upstream) (playlist_id : String)
    (track_ids : List String) : Upstream :=
  if track_ids = [] then up
  else { playlists := up.playlists.map (fun e =>
          if e.1 == playlist_id then (e.1, e.2.filter (fun t => !(track_ids.contains t))) else e) }

/-- Net effect of a playlist-creating adapter call: a fresh empty playlist. -/
def create_playlist (up : Upstream) (playlist_id : String) : Upstream :=
  { playlists := up.playlists ++ [(playlist_id, [])] }

/-- Upstream effect of one recorded adapter call. -/
def apply_adapter_call (up : Upstream) : AdapterCall → Upstream
  | .getPlaylistTracks _ _ => up
  | .addTracksToPlaylist _ pid ids => add_tracks_to_playlist up pid ids
  | .removeTracksFromPlaylist _ pid ids => remove_tracks_from_playlist up pid ids
  | .createPlaylist _ name => create_playlist up name

/-- Upstream effect of a trace of adapter calls. -/
def apply_adapter_calls (up : Upstream) (calls : List AdapterCall) : Upstream :=
  calls.foldl apply_adapter_call up

/-- Result of one `sync_playlist_to_target` execution: the returned value,
the final database, the database states after each repository write (in
program order), and the trace of adapter calls made. -/
structure SyncRunOutput where
  result : Except SpotifyError SyncOperationResponse
  db : Db
  dbTrace : List Db
  calls : List AdapterCall
deriving Repr

/-- `SpotifySyncService::sync_playlist_to_target` (sync.rs lines 117-231).
`fetch` is the environment for `get_playlist_tracks` (keyed by user id and
playlist id), `songlink` the Songlink environment. Program order: look up
the watcher (error if absent, line 129); insert a `pending` journal row
(line 132); run the preview (lines 146-173, with `songs_failed = -1` on a
preview error, line 171); compute the final status (lines 176-182); update
the journal row with `songs_removed = 0` (lines 184-194); update the
watcher's `last_sync_at` (line 215); return the response whose
`completed_at` is `now` since the final status is never `in_progress`
(lines 207-211). -/
def sync_playlist_to_target
    (fetch : Int → String → Except SpotifyError (List PlaylistItem))
    (songlink : String → SonglinkOutcome) (now : Int)
    (db : Db) (watcher_id : Int) : SyncRunOutput :=
  match get_watcher_by_id db watcher_id with
  | none =>
    { result := .error (.ValidationError "Watcher not found")
      db := db, dbTrace := [], calls := [] }
  | some watcher =>
    let created := create_sync_operation now db watcher_id "spotify_sync"
    let sync_op := created.1
    let db1 := created.2
    let preview := preview_sync (fetch watcher.user_id watcher.source_playlist_id)
      songlink watcher.target_service watcher.target_playlist_id
    let outcome : Int × Int × Option String :=
      match preview with
      | .ok p =>
        ((p.songs_to_add.length : Int), (p.songs_failed.length : Int),
         if p.songs_failed.length ≠ 0 then
           some ("Failed to match " ++ toString p.songs_failed.length ++ " tracks")
         else none)
      | .error e => (0, -1, some e.display)
    let songs_added := outcome.1
    let songs_failed := outcome.2.1
    let error_message := outcome.2.2
    let final_status :=
      if error_message = none ∧ songs_failed = 0 then "completed"
      else if songs_added > 0 then "completed_with_errors"
      else "failed"
    let db2 := update_sync_operation now db1 sync_op.id final_status
      songs_added 0 songs_failed error_message
    let db3 := update_last_sync now db2 watcher_id
    { result := .ok
        { id := sync_op.id
          operation_type := sync_op.operation_type
          status := final_status
          songs_added := songs_added
          songs_removed := 0
          songs_failed := songs_failed
          error_message := error_message
          started_at := sync_op.started_at
          completed_at := if final_status ≠ "in_progress" then some now else none }
      db := db3
      dbTrace := [db1, db2, db3]
      calls := [.getPlaylistTracks watcher.user_id watcher.source_playlist_id] }

/-! ## Watcher scheduler tick (`src/backend/src/app/watcher.rs`) -/

/-- `Watcher::sync_watcher` (watcher.rs lines 109-186), one scheduler tick
for a watcher. `env` carries the `SPOTIFY_CLIENT_ID` / `SPOTIFY_REDIRECT_URI`
environment variables read by `sync_spotify_watcher` (lines 194-197).
Returns the final database together with the database states after each
repository write, in program order. A missing watcher or an inactive
watcher is a silent no-op (lines 118-130). On an `Ok` inner result the
outer `auto_sync` row is set to `completed` with the inner counts and
`last_sync_at` is updated (lines 146-166); on `Err` it is set to `failed`
with zero counts and the error text (lines 168-182) — there is no failure
counter and the watcher is never deactivated (the TODO of line 181). -/
def sync_watcher
    (fetch : Int → String → Except SpotifyError (List PlaylistItem))
    (songlink : String → SonglinkOutcome)
    (env : Option String × Option String) (now : Int)
    (db : Db) (watcher_id : Int) : Db × List Db :=
  match get_watcher_by_id db watcher_id with
  | none => (db, [])
  | some watcher =>
    if watcher.is_active then
      let created := create_sync_operation now db watcher_id "auto_sync"
      let sync_op := created.1
      let db1 := created.2
      if watcher.source_service = "spotify" then
        match env.1, env.2 with
        | some _, some _ =>
          let run := sync_playlist_to_target fetch songlink now db1 watcher_id
          match run.result with
          | .ok operation_result =>
            let db2 := update_sync_operation now run.db sync_op.id "completed"
              operation_result.songs_added operation_result.songs_removed
              operation_result.songs_failed none
            let db3 := update_last_sync now db2 watcher_id
            (db3, db1 :: run.dbTrace ++ [db2, db3])
          | .error e =>
            let db2 := update_sync_operation now run.db sync_op.id "failed" 0 0 0
              (some ("Spotify sync failed: " ++ e.display))
            (db2, db1 :: run.dbTrace ++ [db2])
        | none, _ =>
          let db2 := update_sync_operation now db1 sync_op.id "failed" 0 0 0
            (some "SPOTIFY_CLIENT_ID not set")
          (db2, [db1, db2])
        | some _, none =>
          let db2 := update_sync_operation now db1 sync_op.id "failed" 0 0 0
            (some "SPOTIFY_REDIRECT_URI not set")
          (db2, [db1, db2])
      else
        let db2 := update_sync_operation now db1 sync_op.id "failed" 0 0 0
          (some ("Unsupported source service: " ++ watcher.source_service))
        (db2, [db1, db2])
    else (db, [])

/-- The per-watcher task loop of `start_watcher_task` (watcher.rs lines
84-94): each interval tick runs `sync_watcher` once, an `Err` is only
logged and the loop continues unconditionally. `watcher_task_iterate n`
is the database after `n` ticks. -/
def watcher_task_iterate
    (fetch : Int → String → Except SpotifyError (List PlaylistItem))
    (songlink : String → SonglinkOutcome)
    (env : Option String × Option String) (now : Int)
    (watcher_id : Int) : Nat → Db → Db
  | 0, db => db
  | n + 1, db =>
    watcher_task_iterate fetch songlink env now watcher_id n
      (sync_watcher fetch songlink env now db watcher_id).1

/-! ## Observations on states and results -/

/-- Number of journal rows of a watcher currently in status `pending`. -/
def pending_count (db : Db) (watcher_id : Int) : Nat :=
  (db.sync_operations.filter (fun r =>
    r.watcher_id == watcher_id && r.status == "pending")).length

/-- Number of journal rows of a watcher in status `failed`. -/
def failed_count (db : Db) (watcher_id : Int) : Nat :=
  (db.sync_operations.filter (fun r =>
    r.watcher_id == watcher_id && r.status == "failed")).length

/-- `songs_added` of a successful sync result. -/
def resp_songs_added : Except SpotifyError SyncOperationResponse → Option Int
  | .ok r => some r.songs_added
  | .error _ => none

/-- `songs_removed` of a successful sync result. -/
def resp_songs_removed : Except SpotifyError SyncOperationResponse → Option Int
  | .ok r => some r.songs_removed
  | .error _ => none

/-- `songs_failed` of a successful sync result. -/
def resp_songs_failed : Except SpotifyError SyncOperationResponse → Option Int
  | .ok r => some r.songs_failed
  | .error _ => none

/-- `status` of a successful sync result. -/
def resp_status : Except SpotifyError SyncOperationResponse → Option String
  | .ok r => some r.status
  | .error _ => none

/-- `songs_to_remove` of a preview outcome (empty on error). -/
def preview_removals : Except SpotifyError SyncPreviewResponse → List SongResponse
  | .ok r => r.songs_to_remove
  | .error _ => []

/-- The configuration fields of a watcher: everything except
`last_sync_at` and `updated_at`. -/
def watcher_config (w : Watcher) :
    Int × Int × String × String × String × String × Option String × Bool × Int × Int :=
  (w.id, w.user_id, w.name, w.source_service, w.source_playlist_id,
   w.target_service, w.target_playlist_id, w.is_active, w.sync_frequency,
   w.created_at)

/-! ## Credential manager (`src/backend/src/app/spotify/auth.rs`)

The `base64` crate's STANDARD engine and `String::from_utf8` are external
crates; they are embedded below by their standard semantics (RFC 4648
base64 with mandatory canonical padding, and strict UTF-8 decoding). -/

/-- The 64-character standard base64 alphabet. -/
def b64_std_table : List Char :=
  "ABCDEFGHIJKLMNOPQRSTUVWXYZabcdefghijklmnopqrstuvwxyz0123456789+/".toList

/-- The 64-character URL-safe base64 alphabet. -/
def b64_url_table : List Char :=
  "ABCDEFGHIJKLMNOPQRSTUVWXYZabcdefghijklmnopqrstuvwxyz0123456789-_".toList

/-- Character of a 6-bit group in the standard alphabet. -/
def b64_std_char (n : Nat) : Char := b64_std_table.getD n 'A'

/-- Character of a 6-bit group in the URL-safe alphabet. -/
def b64_url_char (n : Nat) : Char := b64_url_table.getD n 'A'

/-- The 6-bit groups of a byte sequence (big-endian bit order), as in
RFC 4648 base64. -/
def b64_sextets : List Nat → List Nat
  | [] => []
  | [b1] => [b1 / 4, b1 % 4 * 16]
  | [b1, b2] => [b1 / 4, b1 % 4 * 16 + b2 / 16, b2 % 16 * 4]
  | b1 :: b2 :: b3 :: rest =>
    b1 / 4 :: (b1 % 4 * 16 + b2 / 16) :: (b2 % 16 * 4 + b3 / 64) :: b3 % 64 ::
      b64_sextets rest

/-- Number of `=` padding characters of standard base64. -/
def b64_pad_len : List Nat → Nat
  | [] => 0
  | [_] => 2
  | [_, _] => 1
  | _ :: _ :: _ :: rest => b64_pad_len rest

/-- `base64::engine::general_purpose::STANDARD.encode`, as characters. -/
def base64_encode (bs : List Nat) : List Char :=
  (b64_sextets bs).map b64_std_char ++ List.replicate (b64_pad_len bs) '='

/-- URL-safe base64 without padding (the encoding named by the spec for
the PKCE code challenge). -/
def base64url_nopad_encode (bs : List Nat) : List Char :=
  (b64_sextets bs).map b64_url_char

/-- Value of a standard-alphabet base64 character. -/
def b64_char_val (c : Char) : Option Nat :=
  b64_std_table.findIdx? (fun x => x == c)

/-- `base64::engine::general_purpose::STANDARD.decode` over four-character
quads with canonical padding; `none` on any malformed input. -/
def base64_decode_quads : List Char → Option (List Nat)
  | [] => some []
  | c1 :: c2 :: c3 :: c4 :: rest =>
    match b64_char_val c1, b64_char_val c2 with
    | some v1, some v2 =>
      if c3 = '=' then
        if c4 = '=' ∧ rest = [] then
          if v2 % 16 = 0 then some [v1 * 4 + v2 / 16] else none
        else none
      else
        match b64_char_val c3 with
        | some v3 =>
          if c4 = '=' then
            if rest = [] then
              if v3 % 4 = 0 then
                some [v1 * 4 + v2 / 16, v2 % 16 * 16 + v3 / 4]
              else none
            else none
          else
            match b64_char_val c4 with
            | some v4 =>
              match base64_decode_quads rest with
              | some bs =>
                some ((v1 * 4 + v2 / 16) :: (v2 % 16 * 16 + v3 / 4) ::
                      (v3 % 4 * 64 + v4) :: bs)
              | none => none
            | none => none
        | none => none
    | _, _ => none
  | _ => none

/-- `BASE64.decode` on a string. -/
def base64_decode (s : String) : Option (List Nat) :=
  base64_decode_quads s.toList

/-- Strict UTF-8 decoding of a byte sequence (the semantics of Rust's
`String::from_utf8`): rejects invalid lead bytes, bad continuation bytes,
overlong forms, surrogates, and values above U+10FFFF. -/
def utf8_decode : List Nat → Option (List Char)
  | [] => some []
  | b :: rest =>
    if b < 128 then (utf8_decode rest).map (fun cs => Char.ofNat b :: cs)
    else if b < 194 then none
    else if b < 224 then
      match rest with
      | b2 :: rest2 =>
        if 128 ≤ b2 ∧ b2 < 192 then
          (utf8_decode rest2).map (fun cs =>
            Char.ofNat ((b - 192) * 64 + (b2 - 128)) :: cs)
        else none
      | [] => none
    else if b < 240 then
      match rest with
      | b2 :: b3 :: rest3 =>
        let n := (b - 224) * 4096 + (b2 - 128) * 64 + (b3 - 128)
        if 128 ≤ b2 ∧ b2 < 192 ∧ 128 ≤ b3 ∧ b3 < 192 ∧ 2048 ≤ n ∧
            ¬ (55296 ≤ n ∧ n ≤ 57343) then
          (utf8_decode rest3).map (fun cs => Char.ofNat n :: cs)
        else none
      | _ => none
    else if b < 245 then
      match rest with
      | b2 :: b3 :: b4 :: rest4 =>
        let n := (b - 240) * 262144 + (b2 - 128) * 4096 + (b3 - 128) * 64 +
          (b4 - 128)
        if 128 ≤ b2 ∧ b2 < 192 ∧ 128 ≤ b3 ∧ b3 < 192 ∧ 128 ≤ b4 ∧ b4 < 192 ∧
            65536 ≤ n ∧ n < 1114112 then
          (utf8_decode rest4).map (fun cs => Char.ofNat n :: cs)
        else none
      | _ => none
    else none

/-- `SpotifyAuthService::get_user_credential` (auth.rs lines 401-417):
SELECT by `(user_id, service)`. -/
def get_user_credential (creds : List UserCredential) (user_id : Int)
    (service : String) : Option UserCredential :=
  creds.find? (fun c => c.user_id == user_id && c.service == service)

/-- The token-decryption tail of `get_access_token` (auth.rs lines 324-332):
base64-decode the stored token and re-read it as UTF-8; each step failing
yields a `Generic` error (whose Rust payload embeds the library error's
display, modelled here by a fixed descriptor). -/
def decrypt_access_token (credential : UserCredential) :
    Except SpotifyError String :=
  match base64_decode credential.access_token with
  | none => .error (.Generic "Token decryption failed: invalid base64")
  | some bytes =>
    match utf8_decode bytes with
    | none => .error (.Generic "Token decoding failed: invalid utf-8")
    | some cs => .ok (String.mk cs)

/-- `SpotifyAuthService::get_access_token` (auth.rs lines 312-333): absent
credential → `AuthenticationFailed("No Spotify credentials found")` (line
314); stored expiry with `now ≥ expires_at` → `TokenExpired` (lines
318-322); otherwise the decrypted token. -/
def get_access_token (now : Int) (creds : List UserCredential)
    (user_id : Int) : Except SpotifyError String :=
  match get_user_credential creds user_id "spotify" with
  | none => .error (.AuthenticationFailed "No Spotify credentials found")
  | some credential =>
    match credential.expires_at with
    | some expires_at =>
      if now ≥ expires_at then .error .TokenExpired
      else decrypt_access_token credential
    | none => decrypt_access_token credential

/-! ## SHA-256 (the `sha2` crate function called by
`generate_code_challenge`), bytes in, 32 bytes out. -/

/-- Truncation to a 32-bit word. -/
def w32 (x : Nat) : Nat := x % 4294967296

/-- 32-bit rotate right. -/
def rotr32 (n x : Nat) : Nat := w32 ((x >>> n) ||| (x <<< (32 - n)))

/-- SHA-256 `Ch` function. -/
def sha_ch (x y z : Nat) : Nat := (x &&& y) ^^^ ((x ^^^ 4294967295) &&& z)

/-- SHA-256 `Maj` function. -/
def sha_maj (x y z : Nat) : Nat := (x &&& y) ^^^ (x &&& z) ^^^ (y &&& z)

/-- SHA-256 big sigma 0. -/
def sha_bsig0 (x : Nat) : Nat := rotr32 2 x ^^^ rotr32 13 x ^^^ rotr32 22 x

/-- SHA-256 big sigma 1. -/
def sha_bsig1 (x : Nat) : Nat := rotr32 6 x ^^^ rotr32 11 x ^^^ rotr32 25 x

/-- SHA-256 small sigma 0. -/
def sha_ssig0 (x : Nat) : Nat := rotr32 7 x ^^^ rotr32 18 x ^^^ (x >>> 3)

/-- SHA-256 small sigma 1. -/
def sha_ssig1 (x : Nat) : Nat := rotr32 17 x ^^^ rotr32 19 x ^^^ (x >>> 10)

/-- The SHA-256 round constants (FIPS 180-4), in decimal. -/
def sha256_k : List Nat :=
  [1116352408, 1899447441, 3049323471, 3921009573, 961987163, 1508970993,
   2453635748, 2870763221, 3624381080, 310598401, 607225278, 1426881987,
   1925078388, 2162078206, 2614888103, 3248222580, 3835390401, 4022224774,
   264347078, 604807628, 770255983, 1249150122, 1555081692, 1996064986,
   2554220882, 2821834349, 2952996808, 3210313671, 3336571891, 3584528711,
   113926993, 338241895, 666307205, 773529912, 1294757372, 1396182291,
   1695183700, 1986661051, 2177026350, 2456956037, 2730485921, 2820302411,
   3259730800, 3345764771, 3516065817, 3600352804, 4094571909, 275423344,
   430227734, 506948616, 659060556, 883997877, 958139571, 1322822218,
   1537002063, 1747873779, 1955562222, 2024104815, 2227730452, 2361852424,
   2428436474, 2756734187, 3204031479, 3329325298]

/-- The SHA-256 initial hash value (FIPS 180-4), in decimal. -/
def sha256_h0 : List Nat :=
  [1779033703, 3144134277, 1013904242, 2773480762, 1359893119, 2600822924,
   528734635, 1541459225]

/-- Big-endian bytes of a 32-bit word. -/
def be_bytes4 (x : Nat) : List Nat :=
  [(x >>> 24) &&& 255, (x >>> 16) &&& 255, (x >>> 8) &&& 255, x &&& 255]

/-- Big-endian bytes of a 64-bit length. -/
def be_bytes8 (x : Nat) : List Nat :=
  [(x >>> 56) &&& 255, (x >>> 48) &&& 255, (x >>> 40) &&& 255,
   (x >>> 32) &&& 255, (x >>> 24) &&& 255, (x >>> 16) &&& 255,
   (x >>> 8) &&& 255, x &&& 255]

/-- Big-endian 32-bit words of a byte sequence. -/
def be_words : List Nat → List Nat
  | b1 :: b2 :: b3 :: b4 :: rest =>
    (((b1 * 256 + b2) * 256 + b3) * 256 + b4) :: be_words rest
  | _ => []

/-- SHA-256 message padding: `0x80`, zeros to 56 mod 64, 64-bit bit length. -/
def sha256_pad (msg : List Nat) : List Nat :=
  msg ++ [128] ++ List.replicate ((55 - msg.length % 64 + 64) % 64) 0 ++
    be_bytes8 (msg.length * 8)

/-- Extension of the 16-word message block by `n` further schedule words. -/
def sha256_extend (ws : List Nat) : Nat → List Nat
  | 0 => ws
  | n + 1 =>
    let prev := sha256_extend ws n
    let len := prev.length
    prev ++ [w32 (sha_ssig1 (prev.getD (len - 2) 0) + prev.getD (len - 7) 0 +
                  sha_ssig0 (prev.getD (len - 15) 0) + prev.getD (len - 16) 0)]

/-- The SHA-256 working variables. -/
structure Sha256State where
  a : Nat
  b : Nat
  c : Nat
  d : Nat
  e : Nat
  f : Nat
  g : Nat
  h : Nat

/-- One SHA-256 compression round, fed a `(k, w)` pair. -/
def sha256_round (s : Sha256State) (kw : Nat × Nat) : Sha256State :=
  let t1 := w32 (s.h + sha_bsig1 s.e + sha_ch s.e s.f s.g + kw.1 + kw.2)
  let t2 := w32 (sha_bsig0 s.a + sha_maj s.a s.b s.c)
  { a := w32 (t1 + t2), b := s.a, c := s.b, d := s.c,
    e := w32 (s.d + t1), f := s.e, g := s.f, h := s.g }

/-- SHA-256 compression of one 64-byte block into the hash state. -/
def sha256_compress (hs : List Nat) (block : List Nat) : List Nat :=
  let ws := sha256_extend (be_words block) 48
  let s0 : Sha256State :=
    { a := hs.getD 0 0, b := hs.getD 1 0, c := hs.getD 2 0, d := hs.getD 3 0,
      e := hs.getD 4 0, f := hs.getD 5 0, g := hs.getD 6 0, h := hs.getD 7 0 }
  let s := (sha256_k.zip ws).foldl sha256_round s0
  [w32 (hs.getD 0 0 + s.a), w32 (hs.getD 1 0 + s.b), w32 (hs.getD 2 0 + s.c),
   w32 (hs.getD 3 0 + s.d), w32 (hs.getD 4 0 + s.e), w32 (hs.getD 5 0 + s.f),
   w32 (hs.getD 6 0 + s.g), w32 (hs.getD 7 0 + s.h)]

set_option linter.unusedVariables false in
/-- The 64-byte blocks of a byte sequence. -/
def chunks64 (l : List Nat) : List (List Nat) :=
  if h : l = [] then [] else l.take 64 :: chunks64 (l.drop 64)
termination_by l.length
decreasing_by
  simp only [List.length_drop]
  have hp : 0 < l.length := List.length_pos.mpr h
  omega

/-- `Sha256::digest`: the 32-byte SHA-256 digest of a byte sequence. -/
def sha256 (msg : List Nat) : List Nat :=
  ((chunks64 (sha256_pad msg)).foldl sha256_compress sha256_h0).foldr
    (fun h acc => be_bytes4 h ++ acc) []

/-! ## PKCE helpers (`src/backend/src/app/spotify/auth.rs` lines 15-36) -/

/-- `ALPHABET` (auth.rs line 36): the 66 unreserved characters. -/
def ALPHABET : List Char :=
  "ABCDEFGHIJKLMNOPQRSTUVWXYZabcdefghijklmnopqrstuvwxyz0123456789-._~".toList

/-- UTF-8 encoding of one character (Rust `str::as_bytes` semantics). -/
def utf8_encode_char (c : Char) : List Nat :=
  let n := c.toNat
  if n < 128 then [n]
  else if n < 2048 then [192 + n / 64, 128 + n % 64]
  else if n < 65536 then [224 + n / 4096, 128 + n / 64 % 64, 128 + n % 64]
  else [240 + n / 262144, 128 + n / 4096 % 64, 128 + n / 64 % 64, 128 + n % 64]

/-- `str::as_bytes`: the UTF-8 bytes of a string. -/
def str_utf8_bytes (s : String) : List Nat :=
  s.toList.foldl (fun acc c => acc ++ utf8_encode_char c) []

/-- `generate_code_verifier` (auth.rs lines 16-24). The thread RNG is
modelled by the stream `draws` of sampled indices; `rng.gen_range(0..len)`
guarantees every draw is below `ALPHABET.length = 66`, which theorems take
as a hypothesis. One character is emitted per draw; the code makes exactly
128 draws. -/
def generate_code_verifier (draws : List Nat) : String :=
  String.mk (draws.map (fun idx => ALPHABET.getD idx 'A'))

/-- `.trim_end_matches('=')` on a character list. -/
def trim_end_matches (c : Char) (cs : List Char) : List Char :=
  (cs.reverse.dropWhile (fun x => x == c)).reverse

/-- `.replace(a, b)` for single characters. -/
def replace_char (a b : Char) (cs : List Char) : List Char :=
  cs.map (fun x => if x = a then b else x)

/-- `generate_code_challenge` (auth.rs lines 27-34): standard base64 of the
SHA-256 digest, with padding trimmed, then `+`→`-`, then `/`→`_`. -/
def generate_code_challenge (code_verifier : String) : String :=
  String.mk (replace_char '/' '_' (replace_char '+' '-'
    (trim_end_matches '=' (base64_encode (sha256 (str_utf8_bytes code_verifier))))))

/-- The challenge as worded by the spec: the URL-safe base64 encoding,
without padding, of the SHA-256 digest of the verifier. -/
def code_challenge_spec (code_verifier : String) : String :=
  String.mk (base64url_nopad_encode (sha256 (str_utf8_bytes code_verifier)))

/-! ## Concrete example data used by counterexamples and witnesses -/

/-- A spotify-to-youtube-music watcher. -/
def exWatcher : Watcher :=
  { id := 1, user_id := 7, name := "w", source_service := "spotify",
    source_playlist_id := "SRC", target_service := "youtube_music",
    target_playlist_id := some "TGT", is_active := true,
    sync_frequency := 300, last_sync_at := none, created_at := 0,
    updated_at := 0 }

/-- A database holding only `exWatcher` and an empty journal. -/
def exDb : Db := { watchers := [exWatcher], sync_operations := [], next_sync_op_id := 1 }

/-- A source track with a spotify external URL. -/
def exTrack : FullTrack :=
  { id := some "t1", name := "Song A", artists := ["Artist"],
    album := "Album", duration_ms := 1000,
    external_urls := [("spotify", "https://open.spotify.com/track/t1")] }

/-- The playlist item wrapping `exTrack`. -/
def exItem : PlaylistItem := { track := some (.Track exTrack) }

/-- A Songlink response resolving the track onto YouTube Music. -/
def exLinksResponse : LinksResponse :=
  { entity_unique_id := "SPOTIFY::t1",
    links_by_platform :=
      [(.YoutubeMusic,
        { entity_unique_id := "YOUTUBE_MUSIC::y1",
          url := "https://music.youtube.com/watch?v=y1" })],
    entities_by_unique_id := [("YOUTUBE_MUSIC::y1", { id := "y1" })] }

/-- A Songlink environment answering every lookup with `exLinksResponse`. -/
def exSonglink : String → SonglinkOutcome := fun _ => .ok exLinksResponse

/-- A track-fetch environment: every playlist holds exactly `exItem`. -/
def exFetchOne : Int → String → Except SpotifyError (List PlaylistItem) :=
  fun _ _ => .ok [exItem]

/-- A track-fetch environment: every playlist is empty. -/
def exFetchEmpty : Int → String → Except SpotifyError (List PlaylistItem) :=
  fun _ _ => .ok []

/-- A track-fetch environment that fails (a transient upstream error). -/
def exFetchErr : Int → String → Except SpotifyError (List PlaylistItem) :=
  fun _ _ => .error (.ApiError "boom")

/-- The target playlist contents for the empty-source scenario: one track. -/
def exTargetTracks : List PlaylistItem := [exItem]

/-- A track-fetch environment where the source playlist `SRC` is empty and
every other playlist (in particular the target `TGT`) holds
`exTargetTracks`. -/
def exFetchTargetOnly : Int → String → Except SpotifyError (List PlaylistItem) :=
  fun _ pid => if pid = "SRC" then .ok [] else .ok exTargetTracks

/-- A watcher with an unsupported source service: every scheduler tick for
it fails. -/
def exWatcherTidal : Watcher := { exWatcher with id := 2, source_service := "tidal" }

/-- A database holding only `exWatcherTidal`. -/
def exDbTidal : Db :=
  { watchers := [exWatcherTidal], sync_operations := [], next_sync_op_id := 1 }

/-- A configured Spotify environment (`SPOTIFY_CLIENT_ID`,
`SPOTIFY_REDIRECT_URI`). -/
def exEnv : Option String × Option String := (some "cid", some "ruri")

/-- A pending journal row awaiting its terminal update. -/
def exPendingRow : SyncOperation :=
  { id := 1, watcher_id := 1, operation_type := "manual_sync",
    status := "pending", songs_added := 0, songs_removed := 0,
    songs_failed := 0, error_message := none, started_at := 5,
    completed_at := none }

/-- A database whose journal holds only `exPendingRow`. -/
def exDbRow : Db :=
  { watchers := [exWatcher], sync_operations := [exPendingRow], next_sync_op_id := 2 }

/-- A stored Spotify credential that expires at time 50. -/
def exCredExpired : UserCredential :=
  { id := 1, user_id := 1, service := "spotify", access_token := "dG9rZW4=",
    refresh_token := none, expires_at := some 50, token_scope := none,
    created_at := 0, updated_at := 0 }

/-- A second source track, whose Songlink lookup will fail. -/
def exTrack2 : FullTrack :=
  { id := some "t2", name := "Song B", artists := [], album := "Album",
    duration_ms := 2000, external_urls := [("spotify", "u2")] }

/-- The playlist item wrapping `exTrack2`. -/
def exItem2 : PlaylistItem := { track := some (.Track exTrack2) }

/-- A track-fetch environment: every playlist holds `exItem` and `exItem2`. -/
def exFetchTwo : Int → String → Except SpotifyError (List PlaylistItem) :=
  fun _ _ => .ok [exItem, exItem2]

/-- A Songlink environment that resolves only the first track's URL. -/
def exSonglinkPartial : String → SonglinkOutcome :=
  fun url =>
    if url = "https://open.spotify.com/track/t1" then .ok exLinksResponse
    else .err "songlink down"

/-- `completed_at` of a successful sync result. -/
def resp_completed_at : Except SpotifyError SyncOperationResponse → Option (Option Int)
  | .ok r => some r.completed_at
  | .error _ => none

/-- The response of the one-track sync run used by witnesses. -/
def exRunResp : SyncOperationResponse :=
  { id := 1, operation_type := "spotify_sync", status := "completed",
    songs_added := 1, songs_removed := 0, songs_failed := 0,
    error_message := none, started_at := 10, completed_at := some 10 }

/-! ## Helper lemmas -/

theorem touch_watcher_id (now wid : Int) (w : Watcher) :
    (touch_watcher now wid w).id = w.id := by
  unfold touch_watcher; split <;> rfl

theorem touch_watcher_user_id (now wid : Int) (w : Watcher) :
    (touch_watcher now wid w).user_id = w.user_id := by
  unfold touch_watcher; split <;> rfl

theorem touch_watcher_source_playlist_id (now wid : Int) (w : Watcher) :
    (touch_watcher now wid w).source_playlist_id = w.source_playlist_id := by
  unfold touch_watcher; split <;> rfl

theorem touch_watcher_target_service (now wid : Int) (w : Watcher) :
    (touch_watcher now wid w).target_service = w.target_service := by
  unfold touch_watcher; split <;> rfl

theorem touch_watcher_target_playlist_id (now wid : Int) (w : Watcher) :
    (touch_watcher now wid w).target_playlist_id = w.target_playlist_id := by
  unfold touch_watcher; split <;> rfl

theorem touch_watcher_is_active (now wid : Int) (w : Watcher) :
    (touch_watcher now wid w).is_active = w.is_active := by
  unfold touch_watcher; split <;> rfl

theorem touch_watcher_config (now wid : Int) (w : Watcher) :
    watcher_config (touch_watcher now wid w) = watcher_config w := by
  unfold touch_watcher; split <;> rfl

theorem find_map_touch (l : List Watcher) (now wid wid' : Int) :
    (l.map (touch_watcher now wid)).find? (fun w => w.id == wid')
      = (l.find? (fun w => w.id == wid')).map (touch_watcher now wid) := by
  induction l with
  | nil => rfl
  | cons a t ih =>
    simp only [List.map_cons, List.find?_cons, touch_watcher_id]
    by_cases h : (a.id == wid') = true
    · simp [h]
    · simp only [h, cond_false, ih]

theorem get_watcher_by_id_create (now : Int) (db : Db) (wid : Int)
    (ty : String) (wid' : Int) :
    get_watcher_by_id (create_sync_operation now db wid ty).2 wid'
      = get_watcher_by_id db wid' := rfl

theorem get_watcher_by_id_update_sync (now : Int) (db : Db) (sid : Int)
    (st : String) (a r f : Int) (e : Option String) (wid' : Int) :
    get_watcher_by_id (update_sync_operation now db sid st a r f e) wid'
      = get_watcher_by_id db wid' := rfl

theorem get_watcher_by_id_update_last_sync (now : Int) (db : Db)
    (wid wid' : Int) :
    get_watcher_by_id (update_last_sync now db wid) wid'
      = (get_watcher_by_id db wid').map (touch_watcher now wid) := by
  unfold get_watcher_by_id update_last_sync
  exact find_map_touch db.watchers now wid wid'

theorem length_filter_map_le {α : Type} (l : List α) (g : α → α) (p : α → Bool)
    (hp : ∀ x ∈ l, p (g x) = true → p x = true) :
    ((l.map g).filter p).length ≤ (l.filter p).length := by
  induction l with
  | nil => simp
  | cons a t ih =>
    have ih' := ih (fun x hx hpx => hp x (List.mem_cons_of_mem a hx) hpx)
    simp only [List.map_cons, List.filter_cons]
    by_cases h1 : p (g a) = true
    · have h2 := hp a (List.mem_cons_self a t) h1
      rw [if_pos h1, if_pos h2]
      simpa using ih'
    · rw [if_neg h1]
      by_cases h2 : p a = true
      · rw [if_pos h2]
        exact le_trans ih' (Nat.le_succ _)
      · rw [if_neg h2]
        exact ih'

theorem pending_count_create (now : Int) (db : Db) (wid : Int) (ty : String) :
    pending_count (create_sync_operation now db wid ty).2 wid
      = pending_count db wid + 1 := by
  simp [pending_count, create_sync_operation, List.filter_append]

theorem pending_count_create_le (now : Int) (db : Db) (wid : Int)
    (ty : String) (wid' : Int) :
    pending_count (create_sync_operation now db wid ty).2 wid'
      ≤ pending_count db wid' + 1 := by
  simp only [pending_count, create_sync_operation, List.filter_append,
    List.length_append, List.filter_cons, List.filter_nil]
  split <;> simp

theorem pending_count_update_le (now : Int) (db : Db) (sid : Int)
    (st : String) (a r f : Int) (e : Option String) (hst : st ≠ "pending")
    (wid : Int) :
    pending_count (update_sync_operation now db sid st a r f e) wid
      ≤ pending_count db wid := by
  unfold pending_count update_sync_operation
  apply length_filter_map_le
  intro x _ hpx
  by_cases h : (x.id == sid) = true
  · exfalso
    rw [if_pos h] at hpx
    simp only [Bool.and_eq_true, beq_iff_eq] at hpx
    exact hst hpx.2
  · rwa [if_neg h] at hpx

theorem pending_count_update_last_sync (now : Int) (db : Db)
    (wid wid' : Int) :
    pending_count (update_last_sync now db wid) wid'
      = pending_count db wid' := rfl

theorem final_status_ne_pending (c1 c2 : Prop) [Decidable c1] [Decidable c2] :
    (if c1 then "completed" else if c2 then "completed_with_errors"
     else "failed") ≠ "pending" := by
  split
  · decide
  · split <;> decide

theorem b64_std_char_ne_pad_char (n : Nat) : b64_std_char n ≠ '=' := by
  by_cases h : n < 64
  · exact (by decide : ∀ m, m < 64 → b64_std_char m ≠ '=') n h
  · have hlen : b64_std_table.length ≤ n := by
      have h64 : b64_std_table.length = 64 := by decide
      omega
    unfold b64_std_char
    rw [List.getD_eq_default _ _ hlen]
    decide

theorem pad_char_not_mem_map_std (ss : List Nat) :
    '=' ∉ ss.map b64_std_char := by
  intro hmem
  rcases List.mem_map.mp hmem with ⟨n, _, hn⟩
  exact b64_std_char_ne_pad_char n hn

theorem dropWhile_pad_replicate_append (k : Nat) (ys : List Char) :
    (List.replicate k '=' ++ ys).dropWhile (fun x => x == '=')
      = ys.dropWhile (fun x => x == '=') := by
  induction k with
  | zero => rfl
  | succ m ih =>
    rw [List.replicate_succ, List.cons_append, List.dropWhile_cons]
    simp only [beq_self_eq_true, if_true]
    exact ih

theorem dropWhile_pad_of_not_mem (ys : List Char) (h : '=' ∉ ys) :
    ys.dropWhile (fun x => x == '=') = ys := by
  cases ys with
  | nil => rfl
  | cons a t =>
    have ha : a ≠ '=' := fun hc => h (hc ▸ List.mem_cons_self a t)
    have hb : (a == '=') = false := by simpa using ha
    simp [List.dropWhile_cons, hb]

theorem trim_end_matches_append_replicate (xs : List Char) (k : Nat)
    (h : '=' ∉ xs) :
    trim_end_matches '=' (xs ++ List.replicate k '=') = xs := by
  unfold trim_end_matches
  rw [List.reverse_append, List.reverse_replicate,
    dropWhile_pad_replicate_append,
    dropWhile_pad_of_not_mem _ (fun hc => h (List.mem_reverse.mp hc)),
    List.reverse_reverse]

theorem std_to_url_char (n : Nat) :
    (fun c => if (if c = '+' then '-' else c) = '/' then '_'
              else if c = '+' then '-' else c) (b64_std_char n)
      = b64_url_char n := by
  by_cases h : n < 64
  · exact (by decide : ∀ m, m < 64 →
      (fun c => if (if c = '+' then '-' else c) = '/' then '_'
                else if c = '+' then '-' else c) (b64_std_char m)
        = b64_url_char m) n h
  · have hs : b64_std_table.length ≤ n := by
      have h64 : b64_std_table.length = 64 := by decide
      omega
    have hu : b64_url_table.length ≤ n := by
      have h64 : b64_url_table.length = 64 := by decide
      omega
    unfold b64_std_char b64_url_char
    rw [List.getD_eq_default _ _ hs, List.getD_eq_default _ _ hu]
    decide

theorem replace_replace_map (cs : List Char) :
    replace_char '/' '_' (replace_char '+' '-' cs)
      = cs.map (fun c => if (if c = '+' then '-' else c) = '/' then '_'
                         else if c = '+' then '-' else c) := by
  unfold replace_char
  rw [List.map_map]
  rfl

theorem base64_std_trim_replace (bs : List Nat) :
    replace_char '/' '_' (replace_char '+' '-'
      (trim_end_matches '=' (base64_encode bs)))
      = base64url_nopad_encode bs := by
  unfold base64_encode base64url_nopad_encode
  rw [trim_end_matches_append_replicate _ _ (pad_char_not_mem_map_std _),
    replace_replace_map, List.map_map]
  have hfun : ((fun c => if (if c = '+' then '-' else c) = '/' then '_'
      else if c = '+' then '-' else c) ∘ b64_std_char) = b64_url_char := by
    funext n
    exact std_to_url_char n
  rw [hfun]

theorem map_config_touch (l : List Watcher) (now wid : Int) :
    (l.map (touch_watcher now wid)).map watcher_config
      = l.map watcher_config := by
  rw [List.map_map]
  have hfun : (watcher_config ∘ touch_watcher now wid) = watcher_config := by
    funext w
    exact touch_watcher_config now wid w
  rw [hfun]

/-! ## Claim theorems -/

/-- C1 counterexample: the idempotence claim is false on the code. With an
unchanged one-track source whose track resolves, the second consecutive
`sync_playlist_to_target` run reports `songs_added = 1`, not `0`: the
engine recomputes the full preview from the source alone on every run and
never consults the target, so the second run does not report zero counts. -/
theorem c1_idempotence_counterexample :
    ¬ (resp_songs_added (sync_playlist_to_target exFetchOne exSonglink 20
          (sync_playlist_to_target exFetchOne exSonglink 10 exDb 1).db 1).result
        = some 0
      ∧ resp_songs_removed (sync_playlist_to_target exFetchOne exSonglink 20
          (sync_playlist_to_target exFetchOne exSonglink 10 exDb 1).db 1).result
        = some 0
      ∧ resp_status (sync_playlist_to_target exFetchOne exSonglink 20
          (sync_playlist_to_target exFetchOne exSonglink 10 exDb 1).db 1).result
        = some "completed") := by
  decide

/-- C2 counterexample: with an empty source playlist `SRC` and a non-empty
target playlist `TGT` (holding `exTargetTracks`, one track, in the same
fetch environment), the sync run reports `songs_removed = 0`, not
`|target| = 1`: removal is unimplemented and the target is never read. -/
theorem c2_empty_source_counterexample :
    ¬ (resp_songs_removed (sync_playlist_to_target exFetchTargetOnly
          exSonglink 10 exDb 1).result
        = some (exTargetTracks.length : Int)) := by
  decide

/-- C3 counterexample: on the path where the preview step fails entirely,
the produced sync operation carries `songs_failed = -1` (the sentinel of
sync.rs line 171), which is negative. -/
theorem c3_nonnegative_counterexample :
    resp_songs_failed (sync_playlist_to_target exFetchErr exSonglink 10
        exDb 1).result = some (-1)
    ∧ ¬ (0 ≤ (-1 : Int)) := by
  decide

/-- C5 (code bug): `update_sync_operation` sets `completed_at` only for the
statuses `completed` and `failed` (repository.rs line 247). Called with the
terminal status `completed_with_errors` it leaves `completed_at` NULL,
while the same run's returned response (sync.rs lines 207-211) and the
spec both treat `completed_with_errors` as terminal with `completed_at`
set: the third conjunct exhibits a full run ending
`completed_with_errors` whose journal row has no `completed_at` even
though its response does. -/
theorem c5_completed_at_terminal_bug :
    ((update_sync_operation 10 exDbRow 1 "completed_with_errors" 1 0 2
        (some "Failed to match 2 tracks")).sync_operations.map
      (fun row => (row.status, row.completed_at)))
      = [("completed_with_errors", none)]
    ∧ ((update_sync_operation 10 exDbRow 1 "completed" 1 0 0
        none).sync_operations.map (fun row => row.completed_at)) = [some 10]
    ∧ resp_status (sync_playlist_to_target exFetchTwo exSonglinkPartial 10
        exDb 1).result = some "completed_with_errors"
    ∧ resp_completed_at (sync_playlist_to_target exFetchTwo exSonglinkPartial
        10 exDb 1).result = some (some 10)
    ∧ (sync_playlist_to_target exFetchTwo exSonglinkPartial 10
        exDb 1).db.sync_operations.map (fun row => row.completed_at)
      = [none] := by
  decide

/-- C6 counterexample: with no stored credential, `get_access_token` fails
with `AuthenticationFailed("No Spotify credentials found")` — there is no
`NotLinked` variant in `SpotifyError` at all, so the absent-credential
failure is not a dedicated not-linked error kind as claimed. -/
theorem c6_not_linked_counterexample :
    get_access_token 0 [] 1
      = .error (.AuthenticationFailed "No Spotify credentials found")
    ∧ SpotifyError.AuthenticationFailed "No Spotify credentials found"
        ≠ SpotifyError.TokenExpired := by
  decide

/-- C6 amended: `get_access_token` fails with `TokenExpired` when a stored
credential's expiry satisfies `now ≥ expires_at`, and with
`AuthenticationFailed("No Spotify credentials found")` (not a dedicated
`NotLinked` kind, which does not exist) when no credential is stored. -/
theorem c6_access_token_errors_amended (now : Int)
    (creds : List UserCredential) (user_id : Int) (c : UserCredential)
    (t : Int) :
    (get_user_credential creds user_id "spotify" = none →
      get_access_token now creds user_id
        = .error (.AuthenticationFailed "No Spotify credentials found"))
    ∧ (get_user_credential creds user_id "spotify" = some c →
        c.expires_at = some t → now ≥ t →
        get_access_token now creds user_id = .error .TokenExpired) := by
  constructor
  · intro h
    unfold get_access_token
    rw [h]
  · intro h he hn
    unfold get_access_token
    rw [h]
    simp only []
    rw [he]
    simp only []
    rw [if_pos hn]

/-- Witness for `c6_access_token_errors_amended` at a concrete expired
credential. -/
theorem c6_access_token_errors_witness :
    get_access_token 100 [exCredExpired] 1 = .error .TokenExpired :=
  (c6_access_token_errors_amended 100 [exCredExpired] 1 exCredExpired 50).2
    (by decide) (by decide) (by decide)

set_option maxRecDepth 4000 in
/-- C7 counterexample: the quarantine claim is false on the code. For a
watcher whose every run fails (unsupported source service), after 5
consecutive `failed` runs the watcher's `active` flag is still true, and a
6th scheduler tick performs a 6th run (a 6th `failed` journal row appears):
no consecutive-failure counter exists (the TODO of watcher.rs line 181). -/
theorem c7_quarantine_counterexample :
    failed_count (watcher_task_iterate exFetchOne exSonglink exEnv 10 2 5
      exDbTidal) 2 = 5
    ∧ (get_watcher_by_id (watcher_task_iterate exFetchOne exSonglink exEnv
        10 2 5 exDbTidal) 2).map (fun w => w.is_active) = some true
    ∧ failed_count (watcher_task_iterate exFetchOne exSonglink exEnv 10 2 6
        exDbTidal) 2 = 6 := by
  decide

/-- C8: every generated code verifier (one character per RNG draw, each
draw below the 66-character alphabet length) is a 128-character string over
the unreserved `ALPHABET`, and for every verifier the code challenge equals
the URL-safe no-padding base64 encoding of the SHA-256 digest of the
verifier. -/
theorem c8_pkce_construction (draws : List Nat) (v : String)
    (hlen : draws.length = 128) (hdr : ∀ d ∈ draws, d < 66) :
    (generate_code_verifier draws).length = 128
    ∧ (∀ ch ∈ (generate_code_verifier draws).toList, ch ∈ ALPHABET)
    ∧ generate_code_challenge v = code_challenge_spec v := by
  refine ⟨?_, ?_, ?_⟩
  · show (draws.map (fun idx => ALPHABET.getD idx 'A')).length = 128
    rw [List.length_map, hlen]
  · intro ch hch
    have hch' : ch ∈ draws.map (fun idx => ALPHABET.getD idx 'A') := hch
    rcases List.mem_map.mp hch' with ⟨d, hd, hv⟩
    rw [← hv]
    exact (by decide : ∀ m, m < 66 → ALPHABET.getD m 'A' ∈ ALPHABET) d
      (hdr d hd)
  · unfold generate_code_challenge code_challenge_spec
    rw [base64_std_trim_replace]

set_option maxRecDepth 4000 in
/-- Witness for `c8_pkce_construction` at a concrete draw stream and
verifier. -/
theorem c8_pkce_construction_witness :
    (generate_code_verifier (List.replicate 128 0)).length = 128
    ∧ (∀ ch ∈ (generate_code_verifier (List.replicate 128 0)).toList,
        ch ∈ ALPHABET)
    ∧ generate_code_challenge "x" = code_challenge_spec "x" :=
  c8_pkce_construction (List.replicate 128 0) "x" (by decide) (by decide)

/-- C9: a full sync run makes no playlist-mutating adapter call (its call
trace passes the non-mutating check, and replaying the trace against any
upstream playlist state leaves that state unchanged), and the only watcher
state it can touch is `last_sync_at`/`updated_at`: all configuration
fields of all watchers are preserved. -/
theorem c9_sync_run_frame
    (fetch : Int → String → Except SpotifyError (List PlaylistItem))
    (songlink : String → SonglinkOutcome) (now : Int) (db : Db)
    (watcher_id : Int) (up : Upstream) :
    ((sync_playlist_to_target fetch songlink now db watcher_id).calls.all
      (fun c => !is_mutating_call c)) = true
    ∧ apply_adapter_calls up
        (sync_playlist_to_target fetch songlink now db watcher_id).calls = up
    ∧ (sync_playlist_to_target fetch songlink now db
        watcher_id).db.watchers.map watcher_config
      = db.watchers.map watcher_config := by
  unfold sync_playlist_to_target
  cases hw : get_watcher_by_id db watcher_id with
  | none => exact ⟨rfl, rfl, rfl⟩
  | some w =>
    refine ⟨rfl, rfl, ?_⟩
    show ((db.watchers.map (touch_watcher now watcher_id)).map watcher_config)
      = db.watchers.map watcher_config
    exact map_config_touch db.watchers now watcher_id

/-- C10: `preview_sync` is independent of its `target_playlist_id`
argument (the parameter is unused in the source), and the preview's
`songs_to_remove` is always the empty list: the target playlist is never
consulted. -/
theorem c10_preview_ignores_target
    (source_fetch : Except SpotifyError (List PlaylistItem))
    (songlink : String → SonglinkOutcome) (target_service : String)
    (t1 t2 : Option String) :
    preview_sync source_fetch songlink target_service t1
      = preview_sync source_fetch songlink target_service t2
    ∧ preview_removals (preview_sync source_fetch songlink target_service t1)
      = [] := by
  constructor
  · rfl
  · cases source_fetch <;> rfl

theorem active_map_update_last_sync (now : Int) (db : Db) (wid wid' : Int) :
    (get_watcher_by_id (update_last_sync now db wid) wid').map
      (fun w => w.is_active)
      = (get_watcher_by_id db wid').map (fun w => w.is_active) := by
  rw [get_watcher_by_id_update_last_sync, Option.map_map]
  have hfun : ((fun w : Watcher => w.is_active) ∘ touch_watcher now wid)
      = (fun w : Watcher => w.is_active) := by
    funext w
    exact touch_watcher_is_active now wid w
  rw [hfun]

theorem sync_run_preserves_active
    (fetch : Int → String → Except SpotifyError (List PlaylistItem))
    (songlink : String → SonglinkOutcome) (now : Int) (db : Db)
    (wid wid' : Int) :
    (get_watcher_by_id (sync_playlist_to_target fetch songlink now db
        wid).db wid').map (fun w => w.is_active)
      = (get_watcher_by_id db wid').map (fun w => w.is_active) := by
  unfold sync_playlist_to_target
  cases hw : get_watcher_by_id db wid with
  | none => rfl
  | some w =>
    simp only []
    rw [active_map_update_last_sync, get_watcher_by_id_update_sync,
      get_watcher_by_id_create]

theorem sync_watcher_preserves_active
    (fetch : Int → String → Except SpotifyError (List PlaylistItem))
    (songlink : String → SonglinkOutcome)
    (env : Option String × Option String) (now : Int) (db : Db)
    (wid wid' : Int) :
    (get_watcher_by_id (sync_watcher fetch songlink env now db wid).1
        wid').map (fun w => w.is_active)
      = (get_watcher_by_id db wid').map (fun w => w.is_active) := by
  unfold sync_watcher
  cases hw : get_watcher_by_id db wid with
  | none => rfl
  | some w =>
    simp only []
    cases hact : w.is_active with
    | false => simp only [Bool.false_eq_true, if_false]
    | true =>
      simp only [if_true]
      by_cases hsrc : w.source_service = "spotify"
      · rw [if_pos hsrc]
        cases e1 : env.1 with
        | none =>
          simp only []
          rw [get_watcher_by_id_update_sync, get_watcher_by_id_create]
        | some cid =>
          cases e2 : env.2 with
          | none =>
            simp only []
            rw [get_watcher_by_id_update_sync, get_watcher_by_id_create]
          | some ruri =>
            simp only []
            cases hr : (sync_playlist_to_target fetch songlink now
                (create_sync_operation now db wid "auto_sync").2 wid).result with
            | ok op =>
              simp only []
              rw [active_map_update_last_sync, get_watcher_by_id_update_sync,
                sync_run_preserves_active, get_watcher_by_id_create]
            | error e =>
              simp only []
              rw [get_watcher_by_id_update_sync,
                sync_run_preserves_active, get_watcher_by_id_create]
      · rw [if_neg hsrc]
        simp only []
        rw [get_watcher_by_id_update_sync, get_watcher_by_id_create]

/-- C7 amended: the scheduler task never deactivates a watcher — after any
number of ticks (no matter how many consecutive `failed` runs they
produce), every watcher's `active` flag is exactly what it was before: no
quarantine mechanism exists in the code. -/
theorem c7_no_quarantine_amended
    (fetch : Int → String → Except SpotifyError (List PlaylistItem))
    (songlink : String → SonglinkOutcome)
    (env : Option String × Option String) (now : Int) (wid : Int) (n : Nat)
    (db : Db) (wid' : Int) :
    (get_watcher_by_id (watcher_task_iterate fetch songlink env now wid n db)
        wid').map (fun w => w.is_active)
      = (get_watcher_by_id db wid').map (fun w => w.is_active) := by
  induction n generalizing db with
  | zero => rfl
  | succ m ih =>
    unfold watcher_task_iterate
    rw [ih, sync_watcher_preserves_active]

theorem sync_run_congr
    (fetch : Int → String → Except SpotifyError (List PlaylistItem))
    (songlink : String → SonglinkOutcome) (now now' : Int) (db db' : Db)
    (wid : Int) (w w' : Watcher)
    (h : get_watcher_by_id db wid = some w)
    (h' : get_watcher_by_id db' wid = some w')
    (hu : w'.user_id = w.user_id)
    (hs : w'.source_playlist_id = w.source_playlist_id)
    (ht : w'.target_service = w.target_service)
    (hp : w'.target_playlist_id = w.target_playlist_id) :
    resp_songs_added (sync_playlist_to_target fetch songlink now' db' wid).result
      = resp_songs_added (sync_playlist_to_target fetch songlink now db wid).result
    ∧ resp_songs_removed (sync_playlist_to_target fetch songlink now' db' wid).result
      = some 0
    ∧ resp_songs_failed (sync_playlist_to_target fetch songlink now' db' wid).result
      = resp_songs_failed (sync_playlist_to_target fetch songlink now db wid).result
    ∧ resp_status (sync_playlist_to_target fetch songlink now' db' wid).result
      = resp_status (sync_playlist_to_target fetch songlink now db wid).result := by
  unfold sync_playlist_to_target
  rw [h, h']
  simp only []
  rw [hu, hs, ht, hp]
  exact ⟨rfl, rfl, rfl, rfl⟩

/-- C1 amended: with the source and resolver unchanged, running the sync
twice yields a second run with the same `songs_added`, `songs_failed` and
status as the first, and `songs_removed = 0` — not zero counts: the engine
recomputes the same full preview on every run (the apply step is
unimplemented and the target is never consulted), so the second run
repeats the first run's counts rather than reporting `songs_added = 0`. -/
theorem c1_idempotence_amended
    (fetch : Int → String → Except SpotifyError (List PlaylistItem))
    (songlink : String → SonglinkOutcome) (now1 now2 : Int) (db : Db)
    (wid : Int) (w : Watcher)
    (h : get_watcher_by_id db wid = some w) :
    resp_songs_added (sync_playlist_to_target fetch songlink now2
        (sync_playlist_to_target fetch songlink now1 db wid).db wid).result
      = resp_songs_added (sync_playlist_to_target fetch songlink now1 db
          wid).result
    ∧ resp_songs_removed (sync_playlist_to_target fetch songlink now2
        (sync_playlist_to_target fetch songlink now1 db wid).db wid).result
      = some 0
    ∧ resp_songs_failed (sync_playlist_to_target fetch songlink now2
        (sync_playlist_to_target fetch songlink now1 db wid).db wid).result
      = resp_songs_failed (sync_playlist_to_target fetch songlink now1 db
          wid).result
    ∧ resp_status (sync_playlist_to_target fetch songlink now2
        (sync_playlist_to_target fetch songlink now1 db wid).db wid).result
      = resp_status (sync_playlist_to_target fetch songlink now1 db
          wid).result := by
  have h2 : get_watcher_by_id (sync_playlist_to_target fetch songlink now1
      db wid).db wid = some (touch_watcher now1 wid w) := by
    unfold sync_playlist_to_target
    rw [h]
    simp only []
    rw [get_watcher_by_id_update_last_sync, get_watcher_by_id_update_sync,
      get_watcher_by_id_create, h]
    rfl
  exact sync_run_congr fetch songlink now1 now2 db
    (sync_playlist_to_target fetch songlink now1 db wid).db wid w
    (touch_watcher now1 wid w) h h2
    (touch_watcher_user_id now1 wid w)
    (touch_watcher_source_playlist_id now1 wid w)
    (touch_watcher_target_service now1 wid w)
    (touch_watcher_target_playlist_id now1 wid w)

/-- Witness for `c1_idempotence_amended` at a concrete watcher, source and
resolver. -/
theorem c1_idempotence_amended_witness :
    resp_songs_added (sync_playlist_to_target exFetchOne exSonglink 20
        (sync_playlist_to_target exFetchOne exSonglink 10 exDb 1).db 1).result
      = resp_songs_added (sync_playlist_to_target exFetchOne exSonglink 10
          exDb 1).result
    ∧ resp_songs_removed (sync_playlist_to_target exFetchOne exSonglink 20
        (sync_playlist_to_target exFetchOne exSonglink 10 exDb 1).db 1).result
      = some 0
    ∧ resp_songs_failed (sync_playlist_to_target exFetchOne exSonglink 20
        (sync_playlist_to_target exFetchOne exSonglink 10 exDb 1).db 1).result
      = resp_songs_failed (sync_playlist_to_target exFetchOne exSonglink 10
          exDb 1).result
    ∧ resp_status (sync_playlist_to_target exFetchOne exSonglink 20
        (sync_playlist_to_target exFetchOne exSonglink 10 exDb 1).db 1).result
      = resp_status (sync_playlist_to_target exFetchOne exSonglink 10
          exDb 1).result :=
  c1_idempotence_amended exFetchOne exSonglink 10 20 exDb 1 exWatcher
    (by decide)

/-- C2 amended: with an empty source playlist, the sync run reports
`songs_added = 0`, `songs_removed = 0` (not `|target|`: the target playlist
is never read and removal is unimplemented), `songs_failed = 0` and status
`completed`. -/
theorem c2_empty_source_amended
    (fetch : Int → String → Except SpotifyError (List PlaylistItem))
    (songlink : String → SonglinkOutcome) (now : Int) (db : Db)
    (wid : Int) (w : Watcher)
    (h : get_watcher_by_id db wid = some w)
    (hfetch : fetch w.user_id w.source_playlist_id = .ok []) :
    resp_songs_added (sync_playlist_to_target fetch songlink now db
        wid).result = some 0
    ∧ resp_songs_removed (sync_playlist_to_target fetch songlink now db
        wid).result = some 0
    ∧ resp_songs_failed (sync_playlist_to_target fetch songlink now db
        wid).result = some 0
    ∧ resp_status (sync_playlist_to_target fetch songlink now db
        wid).result = some "completed" := by
  unfold sync_playlist_to_target
  rw [h]
  simp only []
  rw [hfetch]
  simp [preview_sync, resp_songs_added, resp_songs_removed,
    resp_songs_failed, resp_status]

/-- Witness for `c2_empty_source_amended` at a concrete empty source. -/
theorem c2_empty_source_amended_witness :
    resp_songs_added (sync_playlist_to_target exFetchEmpty exSonglink 10
        exDb 1).result = some 0
    ∧ resp_songs_removed (sync_playlist_to_target exFetchEmpty exSonglink 10
        exDb 1).result = some 0
    ∧ resp_songs_failed (sync_playlist_to_target exFetchEmpty exSonglink 10
        exDb 1).result = some 0
    ∧ resp_status (sync_playlist_to_target exFetchEmpty exSonglink 10
        exDb 1).result = some "completed" :=
  c2_empty_source_amended exFetchEmpty exSonglink 10 exDb 1 exWatcher
    (by decide) (by decide)

/-- C3 amended: every sync operation result has `songs_added ≥ 0` and
`songs_removed ≥ 0`, and `songs_failed ≥ 0` on every path except the one
where the preview step fails entirely, where `songs_failed` is the `-1`
sentinel — so the non-negativity claim holds for added/removed but not for
`songs_failed`. -/
theorem c3_counts_amended
    (fetch : Int → String → Except SpotifyError (List PlaylistItem))
    (songlink : String → SonglinkOutcome) (now : Int) (db : Db)
    (wid : Int) (r : SyncOperationResponse)
    (h : (sync_playlist_to_target fetch songlink now db wid).result = .ok r) :
    0 ≤ r.songs_added ∧ 0 ≤ r.songs_removed
    ∧ (0 ≤ r.songs_failed ∨ r.songs_failed = -1) := by
  unfold sync_playlist_to_target at h
  cases hw : get_watcher_by_id db wid with
  | none =>
    rw [hw] at h
    exact absurd h (by simp)
  | some w =>
    rw [hw] at h
    simp only [] at h
    cases hp : preview_sync (fetch w.user_id w.source_playlist_id) songlink
        w.target_service w.target_playlist_id with
    | ok p =>
      rw [hp] at h
      simp only [] at h
      injection h with h
      rw [← h]
      exact ⟨Int.natCast_nonneg _, le_refl 0, Or.inl (Int.natCast_nonneg _)⟩
    | error e =>
      rw [hp] at h
      simp only [] at h
      injection h with h
      rw [← h]
      exact ⟨le_refl 0, le_refl 0, Or.inr rfl⟩

/-- Witness for `c3_counts_amended` at a concrete successful run. -/
theorem c3_counts_amended_witness :
    0 ≤ exRunResp.songs_added ∧ 0 ≤ exRunResp.songs_removed
    ∧ (0 ≤ exRunResp.songs_failed ∨ exRunResp.songs_failed = -1) :=
  c3_counts_amended exFetchOne exSonglink 10 exDb 1 exRunResp (by decide)

/-- C4 counterexample: during a single scheduler tick for a watcher, after
the inner sync engine inserts its own `spotify_sync` journal row (while the
scheduler's outer `auto_sync` row is still `pending`), two `pending` rows
for the same watcher exist concurrently: the second database state of the
tick's write trace has `pending_count = 2 > 1`. -/
theorem c4_pending_unique_counterexample :
    ((sync_watcher exFetchOne exSonglink exEnv 10 exDb 1).2[1]?).map
      (fun s => pending_count s 1) = some 2
    ∧ ¬ (2 ≤ 1) := by
  decide

theorem sync_run_pending_bound
    (fetch : Int → String → Except SpotifyError (List PlaylistItem))
    (songlink : String → SonglinkOutcome) (now : Int) (db : Db)
    (wid wid' : Int) :
    (∀ s ∈ (sync_playlist_to_target fetch songlink now db wid).dbTrace,
      pending_count s wid' ≤ pending_count db wid' + 1)
    ∧ pending_count (sync_playlist_to_target fetch songlink now db wid).db
        wid' ≤ pending_count db wid' + 1 := by
  unfold sync_playlist_to_target
  cases hw : get_watcher_by_id db wid with
  | none =>
    simp only []
    constructor
    · intro s hs
      simp at hs
    · omega
  | some w =>
    simp only []
    have hc : pending_count (create_sync_operation now db wid
        "spotify_sync").2 wid' ≤ pending_count db wid' + 1 :=
      pending_count_create_le now db wid "spotify_sync" wid'
    constructor
    · intro s hs
      simp only [List.mem_cons, List.not_mem_nil, or_false] at hs
      rcases hs with h1 | h2 | h3
      · rw [h1]
        exact hc
      · rw [h2]
        exact le_trans (pending_count_update_le _ _ _ _ _ _ _ _
          (final_status_ne_pending _ _) wid') hc
      · rw [h3, pending_count_update_last_sync]
        exact le_trans (pending_count_update_le _ _ _ _ _ _ _ _
          (final_status_ne_pending _ _) wid') hc
    · rw [pending_count_update_last_sync]
      exact le_trans (pending_count_update_le _ _ _ _ _ _ _ _
        (final_status_ne_pending _ _) wid') hc

theorem mem_cons_append_pair {α : Type} (s x : α) (l : List α) (y z : α)
    (hs : s ∈ x :: l ++ [y, z]) : s = x ∨ s ∈ l ∨ s = y ∨ s = z := by
  simp only [List.mem_cons, List.mem_append, List.not_mem_nil, or_false] at hs
  tauto

theorem mem_cons_append_single {α : Type} (s x : α) (l : List α) (y : α)
    (hs : s ∈ x :: l ++ [y]) : s = x ∨ s ∈ l ∨ s = y := by
  simp only [List.mem_cons, List.mem_append, List.not_mem_nil, or_false] at hs
  tauto

/-- C4 amended: the single-pending-row invariant fails, but a weaker bound
holds: starting from a journal with no pending rows for the watcher, at
every database state written during one scheduler tick there are at most
two concurrently `pending` rows for that watcher (the outer `auto_sync`
row plus the sync engine's nested `spotify_sync` row). -/
theorem c4_pending_rows_amended
    (fetch : Int → String → Except SpotifyError (List PlaylistItem))
    (songlink : String → SonglinkOutcome)
    (env : Option String × Option String) (now : Int) (db : Db) (wid : Int)
    (h0 : pending_count db wid = 0) :
    ∀ s ∈ (sync_watcher fetch songlink env now db wid).2,
      pending_count s wid ≤ 2 := by
  intro s hs
  unfold sync_watcher at hs
  cases hw : get_watcher_by_id db wid with
  | none =>
    rw [hw] at hs
    simp at hs
  | some w =>
    rw [hw] at hs
    simp only [] at hs
    cases hact : w.is_active with
    | false =>
      rw [hact] at hs
      simp at hs
    | true =>
      rw [hact] at hs
      simp only [if_true] at hs
      have hc1 : pending_count (create_sync_operation now db wid
          "auto_sync").2 wid = 1 := by
        rw [pending_count_create, h0]
      by_cases hsrc : w.source_service = "spotify"
      · rw [if_pos hsrc] at hs
        cases e1 : env.1 with
        | none =>
          rw [e1] at hs
          simp only [List.mem_cons, List.not_mem_nil, or_false] at hs
          rcases hs with h1 | h2
          · rw [h1, hc1]
            omega
          · rw [h2]
            have := pending_count_update_le now
              (create_sync_operation now db wid "auto_sync").2
              (create_sync_operation now db wid "auto_sync").1.id
              "failed" 0 0 0 (some "SPOTIFY_CLIENT_ID not set")
              (by decide) wid
            omega
        | some cid =>
          cases e2 : env.2 with
          | none =>
            rw [e1, e2] at hs
            simp only [List.mem_cons, List.not_mem_nil, or_false] at hs
            rcases hs with h1 | h2
            · rw [h1, hc1]
              omega
            · rw [h2]
              have := pending_count_update_le now
                (create_sync_operation now db wid "auto_sync").2
                (create_sync_operation now db wid "auto_sync").1.id
                "failed" 0 0 0 (some "SPOTIFY_REDIRECT_URI not set")
                (by decide) wid
              omega
          | some ruri =>
            rw [e1, e2] at hs
            simp only [] at hs
            have hrun := sync_run_pending_bound fetch songlink now
              (create_sync_operation now db wid "auto_sync").2 wid wid
            cases hr : (sync_playlist_to_target fetch songlink now
                (create_sync_operation now db wid "auto_sync").2 wid).result with
            | ok op =>
              rw [hr] at hs
              simp only [] at hs
              rcases mem_cons_append_pair s _ _ _ _ hs with h1 | h2 | h3 | h4
              · rw [h1, hc1]
                omega
              · have := hrun.1 s h2
                omega
              · rw [h3]
                have hud := pending_count_update_le now
                  (sync_playlist_to_target fetch songlink now
                    (create_sync_operation now db wid "auto_sync").2 wid).db
                  (create_sync_operation now db wid "auto_sync").1.id
                  "completed" op.songs_added op.songs_removed
                  op.songs_failed none (by decide) wid
                have := hrun.2
                omega
              · rw [h4, pending_count_update_last_sync]
                have hud := pending_count_update_le now
                  (sync_playlist_to_target fetch songlink now
                    (create_sync_operation now db wid "auto_sync").2 wid).db
                  (create_sync_operation now db wid "auto_sync").1.id
                  "completed" op.songs_added op.songs_removed
                  op.songs_failed none (by decide) wid
                have := hrun.2
                omega
            | error e =>
              rw [hr] at hs
              simp only [] at hs
              rcases mem_cons_append_single s _ _ _ hs with h1 | h2 | h3
              · rw [h1, hc1]
                omega
              · have := hrun.1 s h2
                omega
              · rw [h3]
                have hud := pending_count_update_le now
                  (sync_playlist_to_target fetch songlink now
                    (create_sync_operation now db wid "auto_sync").2 wid).db
                  (create_sync_operation now db wid "auto_sync").1.id
                  "failed" 0 0 0
                  (some ("Spotify sync failed: " ++ e.display))
                  (by decide) wid
                have := hrun.2
                omega
      · rw [if_neg hsrc] at hs
        simp only [List.mem_cons, List.not_mem_nil, or_false] at hs
        rcases hs with h1 | h2
        · rw [h1, hc1]
          omega
        · rw [h2]
          have := pending_count_update_le now
            (create_sync_operation now db wid "auto_sync").2
            (create_sync_operation now db wid "auto_sync").1.id
            "failed" 0 0 0
            (some ("Unsupported source service: " ++ w.source_service))
            (by decide) wid
          omega

/-- Witness for `c4_pending_rows_amended` at the concrete tick, bounding
the state in which both journal rows are pending. -/
theorem c4_pending_rows_amended_witness :
    pending_count ((sync_watcher exFetchOne exSonglink exEnv 10 exDb 1).2.getD
      1 exDb) 1 ≤ 2 :=
  c4_pending_rows_amended exFetchOne exSonglink exEnv 10 exDb 1 (by decide) _
    (by decide)

end YtMusicSpotifyLinker
